import Mathlib

/-!
Verification of the `nocopy` NocoDB client (Python) against its design
specification.  The relevant parts of `src/nocopy/client.py` and
`src/nocopy/cli.py` are shallowly embedded below: Python strings are
modelled as `List Char` (`Str`), dictionaries as association lists,
HTTP requests as records of the arguments the code hands to the
transport, and raised Python exceptions as explicit error constructors.

The file is organised in two parts: first all definitions (the
embedding), then all theorems (helper lemmas followed by the statements
settling the individual specification claims).
-/

namespace Nocopy

/-- Python strings are modelled as lists of characters so that all
operations stay structurally recursive and decidable. -/
abbrev Str := List Char

/-- Coercion from a Lean string literal to the model type. -/
def str (s : String) : Str := s.data

/-! ## URL builder (`build_url`, client.py lines 472-484)

```python
def build_url(*args):
    rsl = []
    for part in args:
        if len(part) == 0:
            continue
        if part[0] == "/":
            part = part[1:]
        if part[-1] == "/":
            part = part[:-1]
        if len(part) != 0:
            rsl.append(part)
    return "/".join(rsl)
```

`part[-1]` is evaluated after the leading slash was stripped; if the
segment was exactly `"/"` the stripped value is empty and Python raises
an `IndexError`.  The embedding returns `Option`: `none` models that
`IndexError`; `some (some p)` means the cleaned part `p` is appended,
`some none` means the part is skipped. -/
def stripTrail : Str → Option (Option Str)
  | [] => none
  | d :: ds =>
    let p2 := if (d :: ds).getLast (List.cons_ne_nil d ds) = '/'
              then (d :: ds).dropLast else d :: ds
    if p2 = [] then some none else some (some p2)

/-- Processing of one `part` of the `build_url` loop: skip the empty
segment, strip one leading slash, then hand over to the trailing-slash
step (whose `part[-1]` can raise). -/
def processPart : Str → Option (Option Str)
  | [] => some none
  | c :: cs => stripTrail (if c = '/' then cs else c :: cs)

/-- Loop of `build_url`: collect the cleaned parts, propagating the
`IndexError` of `processPart`. -/
def collectParts : List Str → Option (List Str)
  | [] => some []
  | p :: ps => do
    let hd ← processPart p
    let rest ← collectParts ps
    match hd with
    | none => pure rest
    | some q => pure (q :: rest)

/-- Embedding of `build_url`: clean every part, then `"/".join`. -/
def build_url (args : List Str) : Option Str :=
  (collectParts args).map (List.intercalate (str "/"))

/-- Trailing-slash step in closed form: strip at most one trailing
slash, drop the segment when the result is empty. -/
def dropTrailSlash (q : Str) : Option Str :=
  let r := if q.getLast? = some '/' then q.dropLast else q
  if r = [] then none else some r

/-- Functional description of the cleaning of one segment, used to state
the behaviour of `build_url` in closed form: strip at most one leading
and at most one trailing slash, drop the segment when the result is
empty. -/
def cleanPart (p : Str) : Option Str :=
  dropTrailSlash (if p.head? = some '/' then p.tail else p)

/-! ## Parameter encoder (`Client.__cond_add_param`, client.py lines 425-442) -/

/-- Value stored in the outgoing query-parameter dictionary: either a
string or an integer (`offset` and `limit` are ints). -/
inductive PVal where
  | s (v : Str)
  | n (v : Int)
deriving DecidableEq

/-- Query-parameter dictionary, modelled as an association list with the
usual Python-dict update semantics. -/
abbrev Params := List (Str × PVal)

/-- Python dict assignment `params[key] = v`: replace the binding if the
key is present, append it otherwise. -/
def setParam : Params → Str → PVal → Params
  | [], key, v => [(key, v)]
  | (k, w) :: rest, key, v =>
    if k = key then (key, v) :: rest else (k, w) :: setParam rest key v

/-- Argument accepted by `__cond_add_param`: `Union[None, str, List[str]]`
with the `None` case carried by `Option`. -/
inductive CVal where
  | s (v : Str)
  | strs (vs : List Str)
deriving DecidableEq

/-- Embedding of `Client.__cond_add_param`: skip `None`, comma-join a
list value, then store under `key`. -/
def cond_add_param (params : Params) (value : Option CVal) (key : Str) : Params :=
  match value with
  | none => params
  | some (.s v) => setParam params key (.s v)
  | some (.strs vs) => setParam params key (.s (List.intercalate (str ",") vs))

/-- Embedding of the parameter building performed by `Client.list`
(client.py lines 145-152): start from `offset` and `limit`, then
conditionally add `where`, `sort`, `fields` and `fields1`. -/
def listParams (whereArg : Option Str) (sort fields fields1 : Option CVal)
    (offset limit : Int) : Params :=
  let params : Params := [(str "offset", .n offset), (str "limit", .n limit)]
  let params := cond_add_param params (whereArg.map CVal.s) (str "where")
  let params := cond_add_param params sort (str "sort")
  let params := cond_add_param params fields (str "fields")
  let params := cond_add_param params fields1 (str "fields1")
  params

/-- Embedding of the parameter building performed by `Client.aggregate`
(client.py lines 299-307): start from `limit` and `offset`, then
conditionally add `column_name`, `func`, `having`, `fields`, `sort`. -/
def aggregateParams (column_name : Option CVal) (funcArg : Option CVal)
    (having fields sort : Option CVal) (offset limit : Int) : Params :=
  let params : Params := [(str "limit", .n limit), (str "offset", .n offset)]
  let params := cond_add_param params column_name (str "column_name")
  let params := cond_add_param params funcArg (str "func")
  let params := cond_add_param params having (str "having")
  let params := cond_add_param params fields (str "fields")
  let params := cond_add_param params sort (str "sort")
  params

/-! ## HTTP transport (`Client.__get`, client.py lines 338-349)

`__get` has signature `def __get(self, params={}, *url)` and performs
`requests.get(build_url(*url), headers={"xc-auth": ...}, params=params)`.
A request is modelled by the arguments the code hands to `requests.get`:
the variadic `url` parts (joined by `build_url` when the final URL is
inspected), the `xc-auth` header value, and whatever object was passed
as `params` — which, due to the positional calling convention, can be a
dictionary or a plain string. -/

/-- Object passed as the `params=` argument of `requests.get`. -/
inductive ParamsArg where
  | dict (ps : Params)
  | strVal (s : Str)
deriving DecidableEq

/-- One GET request as issued by `Client.__get`. -/
structure GetRequest where
  urlParts : List Str
  authToken : Str
  params : ParamsArg
deriving DecidableEq

/-- Final URL of a request: `build_url(*url)`. -/
def GetRequest.finalUrl (r : GetRequest) : Option Str :=
  build_url r.urlParts

/-- Value of the `limit` query parameter of a request, when its params
object is a dictionary. -/
def GetRequest.limitParam (r : GetRequest) : Option PVal :=
  match r.params with
  | .dict ps => ps.lookup (str "limit")
  | .strVal _ => none

/-- Embedding of the request issued by `Client.count` (client.py lines
189-198): `params = {}`, plus `where` when given, sent to
`__get(params, self.base_url, "count")`. -/
def countRequest (base_url auth_token : Str) (whereArg : Option Str) : GetRequest :=
  { urlParts := [base_url, str "count"]
    authToken := auth_token
    params := .dict (match whereArg with
      | none => []
      | some w => [(str "where", .s w)]) }

/-- Embedding of the requests issued by one call to `Client.list`
(client.py lines 113-154).  `srvCount` is the integer the server returns
for the count endpoint (`rsp.json()["count"]`).  With `limit=None` the
code first calls `self.count()` (no `where`), then performs the list
GET with the counted value as `limit`. -/
def listRequests (base_url auth_token : Str) (srvCount : Int)
    (whereArg : Option Str) (limit : Option Int) (offset : Int)
    (sort fields fields1 : Option CVal) : List GetRequest :=
  match limit with
  | none =>
    [ countRequest base_url auth_token none,
      { urlParts := [base_url]
        authToken := auth_token
        params := .dict (listParams whereArg sort fields fields1 offset srvCount) } ]
  | some lim =>
    [ { urlParts := [base_url]
        authToken := auth_token
        params := .dict (listParams whereArg sort fields fields1 offset lim) } ]

/-- String form of an integer (`str(id)` in Python). -/
def intStr (i : Int) : Str := (toString i).data

/-- Embedding of the request issued by `Client.by_id` (client.py lines
156-164).  The source calls `self.__get(self.base_url, str(id))`; since
the first positional parameter of `__get` is `params`, the base URL is
bound to `params` and the only `*url` part is `str(id)`. -/
def by_idRequest (base_url auth_token : Str) (id : Int) : GetRequest :=
  { urlParts := [intStr id]
    authToken := auth_token
    params := .strVal base_url }

/-! ## Payload encoder (`Client.__build_payload`, client.py lines 399-423) -/

/-- Serialized form of one record: a mapping from field names to values
(values abstracted to strings; the claims only concern which keys are
present). -/
abbrev Fields := List (Str × Str)

/-- One element of the `Union[T, List[T]]` payload: a pydantic model
instance or a plain dict. -/
inductive Item where
  | model (fields : Fields)
  | dict (fields : Fields)
deriving DecidableEq

/-- Payload argument of `__build_payload`. -/
inductive Payload where
  | single (i : Item)
  | list (items : List Item)
deriving DecidableEq

/-- Embedding of `item.dict(exclude={"id"})` and
`payload.json(exclude={"id"})`: drop the `id` field. -/
def dictExcludeId (fields : Fields) : Fields :=
  fields.filter (fun kv => kv.1 != str "id")

/-- Body produced by `__build_payload`: JSON of one mapping or of a list
of mappings. -/
inductive Serialized where
  | one (fields : Fields)
  | many (items : List Fields)
deriving DecidableEq

/-- Embedding of `Client.__build_payload`.  The three source branches:

  1. typed single model with `exclude_id` true → `payload.json(exclude={"id"})`,
     URL unchanged;
  2. single dict → `json.dumps(payload)` verbatim, URL unchanged;
  3. everything else → URL extended with `"bulk"`, each dict element kept
     verbatim and each model element serialized with
     `item.dict(exclude={"id"})` — note that this branch never consults
     `exclude_id`.

A single model instance that misses branch 1 (untyped client, or
`exclude_id=False`) falls into branch 3, where iterating a pydantic
model yields `(name, value)` tuples and `item.dict` raises an
`AttributeError`; this is modelled as `none`. -/
def build_payload (hasType : Bool) (payload : Payload) (url : List Str)
    (exclude_id : Bool) : Option (Serialized × List Str) :=
  match payload with
  | .single (.model fs) =>
    if hasType && exclude_id then some (.one (dictExcludeId fs), url)
    else none
  | .single (.dict fs) => some (.one fs, url)
  | .list items =>
    some (.many (items.map (fun it =>
      match it with
      | .dict fs => fs
      | .model fs => dictExcludeId fs)), url ++ [str "bulk"])

/-- Payload and URL produced by `Client.bulk_update` (client.py lines
178-183): `self.__put(items, self.base_url, exclude_id=False)`. -/
def bulk_update_payload (hasType : Bool) (items : List Item) (base_url : List Str) :
    Option (Serialized × List Str) :=
  build_payload hasType (.list items) base_url false

/-- Payload and URL produced by `Client.add` via `__post` (client.py
lines 89-93 and 351-372); `__build_payload` is called without
`exclude_id`, so the default `True` applies. -/
def add_payload (hasType : Bool) (payload : Payload) (base_url : List Str) :
    Option (Serialized × List Str) :=
  build_payload hasType payload base_url true

/-! ## Error translator (`exception_on_error_code`, client.py lines 22-60) -/

/-- Classification of the response body as seen by the translator:
valid JSON whose top level contains a `msg` entry, valid JSON without
one, or text for which `response.json()` raises a `JSONDecodeError`. -/
inductive RspBody where
  | jsonWithMsg (msg : Str) (raw : Str)
  | jsonNoMsg (raw : Str)
  | notJson (raw : Str)
deriving DecidableEq

/-- One HTTP response, with the fields the translator reads.  The reason
phrase is modelled as already-decoded text (the bytes-decoding fallback
of lines 41-47 only chooses between two decodings of the same value). -/
structure Response where
  status_code : Nat
  reason : Str
  url : Str
  body : RspBody
deriving DecidableEq

/-- Outcome of the wrapper: the response passed through, a raised
`requests.exceptions.HTTPError` carrying a message, or a raised
`UnboundLocalError` (the local `message` read before any assignment). -/
inductive WrapResult where
  | ok (r : Response)
  | httpError (msg : Str)
  | unboundLocal
deriving DecidableEq

/-- String form of a natural number. -/
def natStr (n : Nat) : Str := (toString n).data

/-- Embedding of the `exception_on_error_code` wrapper body.  The local
`message` is assigned only when the body has a `msg` entry (line 51) or
when `response.json()` raises (line 53); a body that is valid JSON
without `msg` leaves `message` unassigned, and the f-string of line 55
then raises `UnboundLocalError`. -/
def exception_on_error_code (r : Response) : WrapResult :=
  let kindOpt : Option Str :=
    if 400 ≤ r.status_code ∧ r.status_code < 500 then some (str "Client Error")
    else if 500 ≤ r.status_code ∧ r.status_code < 600 then some (str "Server Error")
    else none
  match kindOpt with
  | none => .ok r
  | some kind =>
    let messageOpt : Option Str :=
      match r.body with
      | .jsonWithMsg m _ => some (str ", " ++ m)
      | .jsonNoMsg _ => none
      | .notJson raw => some (str ":\n" ++ raw)
    match messageOpt with
    | none => .unboundLocal
    | some message =>
      .httpError (natStr r.status_code ++ str " " ++ kind ++ str " " ++ r.reason
        ++ str " for url " ++ r.url ++ message)

/-- Helper for stating "the message contains ...": prefix test on
character lists. -/
def prefixChars : Str → Str → Bool
  | [], _ => true
  | _ :: _, [] => false
  | a :: as, b :: bs => a == b && prefixChars as bs

/-- Substring test on character lists. -/
def containsStr : Str → Str → Bool
  | [], needle => prefixChars needle []
  | c :: t, needle => prefixChars needle (c :: t) || containsStr t needle

/-! ## Record binder: `Client.by_id` response handling (client.py lines
156-164) and `Client.__build_return` (lines 444-464) -/

/-- JSON object returned for a single record. -/
abbrev JsonObj := Fields

/-- Result of `by_id` after the response arrived: the record, or the
`KeyError` raised when the response JSON has no `id` entry. -/
inductive ByIdResult where
  | record (fields : JsonObj)
  | keyError (msg : Str)
deriving DecidableEq

/-- Embedding of the response handling of `Client.by_id`: raise
`KeyError("no item found for id {id}")` when `"id" not in rsp.json()`;
otherwise return `rsp.json()` (untyped client) or
`parse_obj(rsp.json())` (typed client; `parse_obj` is modelled as
preserving the field mapping). -/
def by_id_handle (hasType : Bool) (id : Int) (rspJson : JsonObj) : ByIdResult :=
  if (rspJson.lookup (str "id")).isNone then
    .keyError (str "no item found for id " ++ intStr id)
  else if hasType then
    .record rspJson
  else
    .record rspJson

/-- Return value of `__build_return`: the raw parsed JSON passed through
(untyped client), a list of dicts (`tmp.dict()`), or a list of model
instances (`tmp`). -/
inductive Ret where
  | rawList (items : List JsonObj)
  | dicts (items : List JsonObj)
  | models (items : List JsonObj)
deriving DecidableEq

/-- Embedding of `Client.__build_return`: with no bound type the parsed
response JSON is returned unchanged and `as_dict` is never read;
otherwise each element is run through `parse_obj` and, depending on
`as_dict`, `.dict()` (both modelled as preserving the field mapping). -/
def build_return (hasType : Bool) (rspJson : List JsonObj) (as_dict : Bool) : Ret :=
  if !hasType then .rawList rspJson
  else if as_dict then .dicts rspJson
  else .models rspJson

/-- Value returned by `Client.list` for a given parsed response body. -/
def list_result (hasType : Bool) (rspJson : List JsonObj) (as_dict : Bool) : Ret :=
  build_return hasType rspJson as_dict

/-- Value returned by `Client.find_first` for a given parsed response
body: the `__build_return` value wrapped in a singleton list (client.py
line 227). -/
def find_first_result (hasType : Bool) (rspJson : List JsonObj) (as_dict : Bool) :
    List Ret :=
  [build_return hasType rspJson as_dict]

/-! ## Configuration validation (`__check_get_config`, cli.py lines
178-202) -/

/-- Result of `__check_get_config` under the dependencies pinned by
setup.py (`click==8.0.1`, `pydantic==1.8.2`):

* `fromParams` — a `Config` built from the `--url`/`--token` pair.
  Unreachable: pydantic v1's `BaseModel.__init__(__pydantic_self__,
  **data)` is keyword-only, so the positional `Config(url, token)` of
  cli.py line 196 raises `TypeError` (`typeErrorConfig`).
* `fromFile` — a `Config` loaded from the config file.
* `badOption` — a successfully raised `click.BadOptionUsage`, the
  spec's `ConfigurationError`.  Unreachable: click 8.0.1's
  `BadOptionUsage.__init__(option_name, message, ctx=None)` needs two
  arguments, so each single-argument construction at cli.py lines 188,
  192 and 198 raises `TypeError` instead (`typeErrorBadOption`, which
  records the message the source tried to attach). -/
inductive ConfigResult where
  | fromParams (url token : Str)
  | fromFile (path : Str)
  | badOption (msg : Str)
  | typeErrorBadOption (msg : Str)
  | typeErrorConfig
deriving DecidableEq

/-- Embedding of `__check_get_config`.  `got_url` mirrors the source
expression `url is not None or url == ""` verbatim (the second disjunct
is redundant); likewise `got_token`.  The branch structure is that of
cli.py lines 183-202; the branch outcomes reflect the pinned
dependencies as described at `ConfigResult`: the three
`raise click.BadOptionUsage("...")` statements raise `TypeError` while
constructing the exception, `Config(url, token)` raises `TypeError` in
pydantic's keyword-only `__init__`, and only `Config.from_file` can
complete. -/
def check_get_config (config_file url token : Option Str) : ConfigResult :=
  let got_config := config_file.isSome
  let got_url := url.isSome || url == some (str "")
  let got_token := token.isSome || token == some (str "")
  if got_config && (got_url || got_token) then
    .typeErrorBadOption (str "use ether a config file _or_ the parameters for --url and --token")
  else if got_url ^^ got_token then
    .typeErrorBadOption (str "if defined by parameter _both_ --url and --token have to be set")
  else if got_url && got_token then
    .typeErrorConfig
  else if !got_config then
    .typeErrorBadOption (str "connection information missing, use a config file or the parameters for --url and --token")
  else
    .fromFile (config_file.getD [])

/-- Predicate: the call raised `click.BadOptionUsage` — the spec's
`ConfigurationError`. -/
def ConfigResult.isBadOption : ConfigResult → Bool
  | .badOption _ => true
  | _ => false

/-- Predicate: the call raised some exception (as opposed to returning
a `Config`). -/
def ConfigResult.isRaise : ConfigResult → Bool
  | .badOption _ => true
  | .typeErrorBadOption _ => true
  | .typeErrorConfig => true
  | _ => false

/-! ## Destructive bulk delete (`purge`, cli.py lines 389-419) -/

/-- Names bound in the body of `purge` before the banner `print` runs:
its parameters plus `client`. -/
def purgeLocalNames : List Str :=
  [str "config_file", str "url", str "table", str "token", str "client"]

/-- Module-level names of `nocopy/cli.py`: imports, the `Config` class,
the option decorators, the helpers and the commands.  The lowercase name
`config` is not among them (nor is it a Python builtin). -/
def cliModuleNames : List Str :=
  [str "csv", str "io", str "json", str "Path", str "sys", str "click",
   str "BaseModel", str "fuzz_process", str "yaml", str "Client",
   str "build_url", str "Config", str "config_option", str "format_option",
   str "fuzzy_query_option", str "input_option", str "output_option",
   str "where_option", str "query_params_option", str "table_option",
   str "__check_get_config", str "__determine_file_type", str "__load_csv",
   str "__load_input", str "__get_client", str "__get_csv", str "__write_output",
   str "cli", str "count", str "push", str "init", str "pull",
   str "purge", str "template", str "update"]

/-- Outcome of one run of the `purge` command. -/
inductive PurgeOutcome where
  | nameError (name : Str)
  | exitZero
  | deleted (ids : List Str)
deriving DecidableEq

/-- Embedding of `purge`.  After building the client, the banner
`print(f"... on {config.base_url}")` evaluates the name `config`, which
is bound neither in the function body nor at module level, so Python
raises `NameError` there.  The remaining statements are embedded for
reference: `sys.exit(0)` on a first answer other than `"Y"`, `sys.exit(0)`
when the re-typed name differs from the table, and otherwise one DELETE
per record id obtained from `client.list()`. -/
def purge (table : Str) (ack retype : Str) (records : List JsonObj) : PurgeOutcome :=
  if !((purgeLocalNames ++ cliModuleNames).contains (str "config")) then
    .nameError (str "config")
  else if ack != str "Y" then
    .exitZero
  else if retype != table then
    .exitZero
  else
    .deleted (records.filterMap (fun r => r.lookup (str "id")))

/-! ## Helper lemmas -/

theorem processPart_slash : processPart (str "/") = none := by decide

theorem stripTrail_eq (q : Str) (h : q ≠ []) :
    stripTrail q = some (dropTrailSlash q) := by
  match q with
  | [] => exact absurd rfl h
  | d :: ds =>
    simp only [stripTrail, dropTrailSlash,
      List.getLast?_eq_getLast _ (List.cons_ne_nil d ds), Option.some.injEq]
    split <;> first
      | rfl
      | (split <;> simp_all)

theorem processPart_ne_slash (p : Str) (h : p ≠ str "/") :
    processPart p = some (cleanPart p) := by
  match p with
  | [] => decide
  | c :: cs =>
    by_cases hc : c = '/'
    · subst hc
      have hcs : cs ≠ [] := by
        intro he
        exact h (by rw [he]; rfl)
      simp only [processPart, cleanPart, if_pos rfl, List.head?, List.tail]
      exact stripTrail_eq cs hcs
    · simp only [processPart, cleanPart, if_neg hc, List.head?, List.tail]
      rw [if_neg (by simp [hc])]
      exact stripTrail_eq (c :: cs) (List.cons_ne_nil c cs)

theorem collectParts_no_slash (parts : List Str)
    (h : ¬ (str "/") ∈ parts) :
    collectParts parts = some (parts.filterMap cleanPart) := by
  induction parts with
  | nil => rfl
  | cons p ps ih =>
    simp only [List.mem_cons, not_or] at h
    obtain ⟨hp, hps⟩ := h
    rw [collectParts, processPart_ne_slash p (fun he => hp (by rw [he])), ih hps]
    cases hcp : cleanPart p <;> simp [List.filterMap_cons, hcp, bind, pure]

theorem collectParts_slash (parts : List Str)
    (h : (str "/") ∈ parts) :
    collectParts parts = none := by
  induction parts with
  | nil => simp at h
  | cons p ps ih =>
    rw [collectParts]
    by_cases hp : p = str "/"
    · rw [hp, processPart_slash]; rfl
    · have hps : (str "/") ∈ ps := by
        rcases List.mem_cons.mp h with h | h
        · exact absurd h.symm hp
        · exact h
      rw [processPart_ne_slash p hp, ih hps]
      rfl

theorem build_url_eq (parts : List Str) :
    build_url parts =
      if (str "/") ∈ parts then none
      else some (List.intercalate (str "/") (parts.filterMap cleanPart)) := by
  by_cases h : (str "/") ∈ parts
  · rw [if_pos h, build_url, collectParts_slash parts h]; rfl
  · rw [if_neg h, build_url, collectParts_no_slash parts h]; rfl

theorem lookup_setParam_self (params : Params) (key : Str) (v : PVal) :
    (setParam params key v).lookup key = some v := by
  induction params with
  | nil => simp [setParam, List.lookup]
  | cons kv rest ih =>
    obtain ⟨k, w⟩ := kv
    by_cases hk : k = key
    · simp [setParam, hk, List.lookup]
    · have hb : (key == k) = false :=
        beq_eq_false_iff_ne.mpr (fun he => hk he.symm)
      simp only [setParam, if_neg hk, List.lookup, hb]
      exact ih

theorem lookup_setParam_ne (params : Params) (key other : Str) (v : PVal)
    (h : other ≠ key) :
    (setParam params key v).lookup other = params.lookup other := by
  have hb : (other == key) = false := beq_eq_false_iff_ne.mpr h
  induction params with
  | nil => simp [setParam, List.lookup, hb]
  | cons kv rest ih =>
    obtain ⟨k, w⟩ := kv
    by_cases hk : k = key
    · subst hk
      simp only [setParam, if_pos rfl, List.lookup, hb]
    · simp only [setParam, if_neg hk, List.lookup]
      by_cases ho : other = k
      · simp only [ho, beq_self_eq_true]
      · have hbo : (other == k) = false := beq_eq_false_iff_ne.mpr ho
        simp only [hbo]
        exact ih

theorem lookup_cond_add_ne (params : Params) (value : Option CVal)
    (key other : Str) (h : other ≠ key) :
    (cond_add_param params value key).lookup other = params.lookup other := by
  match value with
  | none => rfl
  | some (.s v) => exact lookup_setParam_ne params key other _ h
  | some (.strs vs) => exact lookup_setParam_ne params key other _ h

theorem lookup_cond_add_strs (params : Params) (key : Str) (vs : List Str) :
    (cond_add_param params (some (.strs vs)) key).lookup key
      = some (.s (List.intercalate (str ",") vs)) :=
  lookup_setParam_self params key _

theorem lookup_init_pair (a b key : Str) (x y : PVal)
    (h1 : (key == a) = false) (h2 : (key == b) = false) :
    (([(a, x), (b, y)] : Params).lookup key) = none := by
  simp [List.lookup, h1, h2]

/-! ## Claims -/

/-- Claim C1 (status: code bug).  The claim says the payload encoder
excludes `id` from each serialized record of a list unless inclusion is
requested, and that `bulk_update` (which passes `exclude_id=False`)
retains `id`.  Evaluating the embedded `__build_payload` shows the bulk
branch ignores `exclude_id`: a typed record in a `bulk_update` payload
loses its `id` even though inclusion was requested, while a dict record
in an `add` payload keeps its `id` even though exclusion is the default.
The bulk path suffix and per-record serialization are as claimed. -/
theorem c1_bulk_payload_ignores_exclude_id :
    bulk_update_payload true [Item.model [(str "id", str "5"), (str "name", str "x")]]
        [str "base"]
      = some (.many [[(str "name", str "x")]], [str "base", str "bulk"])
    ∧ add_payload true (.list [Item.dict [(str "id", str "7"), (str "name", str "y")]])
        [str "base"]
      = some (.many [[(str "id", str "7"), (str "name", str "y")]], [str "base", str "bulk"]) :=
  ⟨by decide, by decide⟩

/-- Claim C2 (status: code bug).  A 404 response whose body is JSON with
a `msg` entry does raise an error whose message contains "Client Error",
the status code and the server message, and a 5xx response raises a
"Server Error"; but a 4xx response whose body is valid JSON *without* a
`msg` entry raises `UnboundLocalError` instead of the claimed error
carrying the raw body text. -/
theorem c2_error_translator_evaluated :
    exception_on_error_code
        { status_code := 404, reason := str "Not Found", url := str "http://h/tbl",
          body := .jsonNoMsg (str "[1, 2]") } = .unboundLocal
    ∧ exception_on_error_code
        { status_code := 404, reason := str "Not Found", url := str "http://h/tbl",
          body := .jsonWithMsg (str "Table not found") (str "x") }
        = .httpError (str "404 Client Error Not Found for url http://h/tbl, Table not found")
    ∧ containsStr (str "404 Client Error Not Found for url http://h/tbl, Table not found")
        (str "Client Error") = true
    ∧ containsStr (str "404 Client Error Not Found for url http://h/tbl, Table not found")
        (str "404") = true
    ∧ containsStr (str "404 Client Error Not Found for url http://h/tbl, Table not found")
        (str "Table not found") = true
    ∧ exception_on_error_code
        { status_code := 503, reason := str "Service Unavailable", url := str "http://h/tbl",
          body := .jsonWithMsg (str "down") (str "x") }
        = .httpError (str "503 Server Error Service Unavailable for url http://h/tbl, down") :=
  ⟨by decide, by decide, by decide, by decide, by decide, by decide⟩

/-- Claim C3 (status: confirmed).  A call to `list` with `limit=None`
issues exactly one count request followed by exactly one list request
whose `limit` query parameter equals the value the count request
returned. -/
theorem c3_list_limit_none_counts_then_fetches :
    ∀ (base_url auth_token : Str) (srvCount : Int) (whereArg : Option Str)
      (offset : Int) (sort fields fields1 : Option CVal),
      ∃ fetch : GetRequest,
        listRequests base_url auth_token srvCount whereArg none offset sort fields fields1
            = [countRequest base_url auth_token none, fetch]
        ∧ fetch.urlParts = [base_url]
        ∧ fetch.limitParam = some (.n srvCount) := by
  intro base tok n w off s f f1
  refine ⟨_, rfl, rfl, ?_⟩
  show (listParams w s f f1 off n).lookup (str "limit") = some (.n n)
  unfold listParams
  rw [lookup_cond_add_ne _ _ _ _ (by decide), lookup_cond_add_ne _ _ _ _ (by decide),
      lookup_cond_add_ne _ _ _ _ (by decide), lookup_cond_add_ne _ _ _ _ (by decide)]
  simp [List.lookup, show ((str "limit") == (str "offset")) = false from by decide]

/-- Claim C4 (status: code bug).  The claim says `by_id` issues a GET to
`<base_url>/<id>` with the `xc-auth` header.  The auth header is carried
as claimed, but because `by_id` passes the base URL into the `params`
slot of `__get`, the request URL is just `str(id)`: for id 5 and base
URL `http://host/api/tbl` the final URL is `"5"`, not
`"http://host/api/tbl/5"`. -/
theorem c4_by_id_request_evaluated :
    (by_idRequest (str "http://host/api/tbl") (str "tok") 5).finalUrl = some (str "5")
    ∧ (by_idRequest (str "http://host/api/tbl") (str "tok") 5).authToken = str "tok"
    ∧ (by_idRequest (str "http://host/api/tbl") (str "tok") 5).params
        = .strVal (str "http://host/api/tbl")
    ∧ build_url [str "http://host/api/tbl", intStr 5] = some (str "http://host/api/tbl/5")
    ∧ (str "5") ≠ (str "http://host/api/tbl/5") :=
  ⟨by decide, rfl, rfl, by decide, by decide⟩

/-- Claim C5 (status: confirmed).  When the response JSON of `by_id`
lacks an `id` entry, the call fails — it raises the fetch-by-id miss
error (a Python `KeyError`, the spec's `NotFound`) and returns no
record, for typed and untyped clients alike. -/
theorem c5_by_id_missing_id_fails (hasType : Bool) (id : Int) (rspJson : JsonObj)
    (h : rspJson.lookup (str "id") = none) :
    by_id_handle hasType id rspJson
      = .keyError (str "no item found for id " ++ intStr id) := by
  unfold by_id_handle
  rw [if_pos (by simp [h])]

/-- Witness for claim C5 at a concrete response without an `id` entry. -/
theorem c5_witness :
    by_id_handle true 7 [(str "name", str "x")]
      = .keyError (str "no item found for id " ++ intStr 7) :=
  c5_by_id_missing_id_fails true 7 [(str "name", str "x")] (by decide)

/-- Claim C6 counterexample: the claim says `build_url` never raises an
error, but on the single segment `"/"` the source evaluates `part[-1]`
on an empty string and raises `IndexError` (modelled as `none`). -/
theorem c6_counterexample :
    build_url [str "/"] = none := by decide

/-- Claim C6 (amended): `build_url` strips at most one leading and at
most one trailing slash from each segment, drops segments that are or
become empty, and joins the rest with single slashes; a segment that is
exactly `"/"` raises `IndexError`, and further slashes inside a segment
are kept (so results can retain leading or duplicate slashes).  The
examples `build_url("a/", "/b", "c/") = "a/b/c"`, skipping of empty
segments, and `build_url() = ""` hold as claimed. -/
theorem c6_build_url_amended :
    (∀ parts : List Str,
        build_url parts =
          if (str "/") ∈ parts then none
          else some (List.intercalate (str "/") (parts.filterMap cleanPart)))
    ∧ build_url [str "a/", str "/b", str "c/"] = some (str "a/b/c")
    ∧ build_url [] = some (str "")
    ∧ build_url [str "a", str "", str "b"] = some (str "a/b")
    ∧ build_url [str "//a", str "b"] = some (str "/a/b") :=
  ⟨build_url_eq, by decide, by decide, by decide, by decide⟩

/-- Claim C7 (status: confirmed).  An optional query argument that is
absent (`None`) never appears as a key of the outgoing parameter
mapping — shown for `where`, `sort`, `fields`, `fields1` of `list` and
`column_name`, `func`, `having` of `aggregate` — and a list-valued
argument is comma-joined into a single string, so `sort=["a","-b"]`
yields the parameter value `"a,-b"`. -/
theorem c7_absent_params_never_sent :
    (∀ sort fields fields1 offset limit,
        (listParams none sort fields fields1 offset limit).lookup (str "where") = none)
    ∧ (∀ whereArg fields fields1 offset limit,
        (listParams whereArg none fields fields1 offset limit).lookup (str "sort") = none)
    ∧ (∀ whereArg sort fields1 offset limit,
        (listParams whereArg sort none fields1 offset limit).lookup (str "fields") = none)
    ∧ (∀ whereArg sort fields offset limit,
        (listParams whereArg sort fields none offset limit).lookup (str "fields1") = none)
    ∧ (∀ funcArg having fields sort offset limit,
        (aggregateParams none funcArg having fields sort offset limit).lookup
          (str "column_name") = none)
    ∧ (∀ column_name having fields sort offset limit,
        (aggregateParams column_name none having fields sort offset limit).lookup
          (str "func") = none)
    ∧ (∀ column_name funcArg fields sort offset limit,
        (aggregateParams column_name funcArg none fields sort offset limit).lookup
          (str "having") = none)
    ∧ (∀ params key vs,
        (cond_add_param params (some (.strs vs)) key).lookup key
          = some (.s (List.intercalate (str ",") vs)))
    ∧ (∀ whereArg fields fields1 offset limit,
        (listParams whereArg (some (.strs [str "a", str "-b"])) fields fields1
            offset limit).lookup (str "sort")
          = some (.s (str "a,-b"))) := by
  refine ⟨?_, ?_, ?_, ?_, ?_, ?_, ?_, ?_, ?_⟩
  · intro s f f1 off lim
    unfold listParams
    rw [lookup_cond_add_ne _ _ _ _ (by decide), lookup_cond_add_ne _ _ _ _ (by decide),
        lookup_cond_add_ne _ _ _ _ (by decide)]
    exact lookup_init_pair _ _ _ _ _ (by decide) (by decide)
  · intro w f f1 off lim
    unfold listParams
    rw [lookup_cond_add_ne _ _ _ _ (by decide), lookup_cond_add_ne _ _ _ _ (by decide)]
    show (cond_add_param _ (w.map CVal.s) (str "where")).lookup (str "sort") = none
    rw [lookup_cond_add_ne _ _ _ _ (by decide)]
    exact lookup_init_pair _ _ _ _ _ (by decide) (by decide)
  · intro w s f1 off lim
    unfold listParams
    rw [lookup_cond_add_ne _ _ _ _ (by decide)]
    show (cond_add_param (cond_add_param _ (w.map CVal.s) (str "where")) s
        (str "sort")).lookup (str "fields") = none
    rw [lookup_cond_add_ne _ _ _ _ (by decide), lookup_cond_add_ne _ _ _ _ (by decide)]
    exact lookup_init_pair _ _ _ _ _ (by decide) (by decide)
  · intro w s f off lim
    unfold listParams
    show (cond_add_param _ f (str "fields")).lookup (str "fields1") = none
    rw [lookup_cond_add_ne _ _ _ _ (by decide), lookup_cond_add_ne _ _ _ _ (by decide),
        lookup_cond_add_ne _ _ _ _ (by decide)]
    exact lookup_init_pair _ _ _ _ _ (by decide) (by decide)
  · intro fu hv f s off lim
    unfold aggregateParams
    rw [lookup_cond_add_ne _ _ _ _ (by decide), lookup_cond_add_ne _ _ _ _ (by decide),
        lookup_cond_add_ne _ _ _ _ (by decide), lookup_cond_add_ne _ _ _ _ (by decide)]
    exact lookup_init_pair _ _ _ _ _ (by decide) (by decide)
  · intro cn hv f s off lim
    unfold aggregateParams
    rw [lookup_cond_add_ne _ _ _ _ (by decide), lookup_cond_add_ne _ _ _ _ (by decide),
        lookup_cond_add_ne _ _ _ _ (by decide)]
    show (cond_add_param _ cn (str "column_name")).lookup (str "func") = none
    rw [lookup_cond_add_ne _ _ _ _ (by decide)]
    exact lookup_init_pair _ _ _ _ _ (by decide) (by decide)
  · intro cn fu f s off lim
    unfold aggregateParams
    rw [lookup_cond_add_ne _ _ _ _ (by decide), lookup_cond_add_ne _ _ _ _ (by decide)]
    show (cond_add_param (cond_add_param _ cn (str "column_name")) fu
        (str "func")).lookup (str "having") = none
    rw [lookup_cond_add_ne _ _ _ _ (by decide), lookup_cond_add_ne _ _ _ _ (by decide)]
    exact lookup_init_pair _ _ _ _ _ (by decide) (by decide)
  · intro params key vs
    exact lookup_cond_add_strs params key vs
  · intro w f f1 off lim
    unfold listParams
    rw [lookup_cond_add_ne _ _ _ _ (by decide), lookup_cond_add_ne _ _ _ _ (by decide),
        lookup_cond_add_strs]
    decide

/-- Claim C8 (status: code bug).  The claim says validation fails with
a `ConfigurationError` in exactly the listed cases — implying the
url+token pair alone succeeds.  Under the dependencies pinned by
setup.py no branch ever raises the `ConfigurationError`
(`click.BadOptionUsage`): its single-argument construction raises
`TypeError` at every raise site, and the positional
`Config(url, token)` of the url+token case raises `TypeError` in
pydantic's keyword-only `__init__`.  The theorem shows `BadOptionUsage`
is never raised, that the call completes without an exception precisely
when only a config file is supplied, and evaluates every branch at a
concrete input. -/
theorem c8_config_validation_type_errors :
    (∀ config_file url token : Option Str,
        (check_get_config config_file url token).isBadOption = false)
    ∧ (∀ config_file url token : Option Str,
        (check_get_config config_file url token).isRaise = false ↔
          (config_file.isSome = true ∧ url.isSome = false ∧ token.isSome = false))
    ∧ check_get_config none (some (str "http://h")) none
        = .typeErrorBadOption (str "if defined by parameter _both_ --url and --token have to be set")
    ∧ check_get_config none (some (str "http://h")) (some (str "tok")) = .typeErrorConfig
    ∧ check_get_config (some (str "cfg.json")) (some (str "http://h")) (some (str "tok"))
        = .typeErrorBadOption (str "use ether a config file _or_ the parameters for --url and --token")
    ∧ check_get_config none none none
        = .typeErrorBadOption (str "connection information missing, use a config file or the parameters for --url and --token")
    ∧ check_get_config (some (str "cfg.json")) none none = .fromFile (str "cfg.json") := by
  refine ⟨?_, ?_, by decide, by decide, by decide, by decide, by decide⟩
  · intro c u t
    cases c <;> cases u <;> cases t <;>
      simp [check_get_config, ConfigResult.isBadOption]
  · intro c u t
    cases c <;> cases u <;> cases t <;>
      simp [check_get_config, ConfigResult.isRaise]

/-- Claim C9 (status: code bug).  The claim describes the two-prompt
confirmation flow of `purge` with clean exits on negative answers.  In
the source, the banner `print` preceding the first prompt reads the
undefined name `config`, so every run of `purge` raises `NameError`
before any prompt — also when both answers would have been affirmative;
the claimed prompt/exit behaviour is unreachable. -/
theorem c9_purge_always_name_error :
    purge (str "users") (str "n") (str "") [] = .nameError (str "config")
    ∧ purge (str "users") (str "Y") (str "users") [[(str "id", str "1")]]
        = .nameError (str "config") :=
  ⟨by decide, by decide⟩

/-- Claim C10 (status: confirmed).  For a client without a bound schema
type, `as_dict` has no effect: for any fixed parsed response body,
`list` and `find_first` return the same value with `as_dict=True` and
`as_dict=False` (the raw parsed JSON passed through). -/
theorem c10_untyped_as_dict_no_effect :
    ∀ rspJson : List JsonObj,
      list_result false rspJson true = list_result false rspJson false
      ∧ find_first_result false rspJson true = find_first_result false rspJson false := by
  intro j
  exact ⟨rfl, rfl⟩

end Nocopy
